import Mathlib

/-
Verification of the core of `kvm-ioctls` (src/ioctls/mod.rs): the
variable-length allocator (`vec_with_size_in_bytes`, `vec_with_array_field`),
the `CpuId` wrapper over `kvm_cpuid2` (construction, clamped mutable entries
view, clone, test-only equality), and `KvmRunWrapper::mmap_from_fd`.

Modelling conventions:
- `usize` arithmetic is modelled with `Nat`; truncating casts (`as u32`) are
  `% u32Mod`; where release-profile wrapping arithmetic matters it is written
  explicitly with `% u64Mod`.
- `Vec<T>` is a `List`; `size_of::<kvm_cpuid2>() = 8` (nent: u32, padding: u32,
  entries: zero-length array) and `size_of::<kvm_cpuid_entry2>() = 40`
  (ten u32 fields) are fixed constants of the kernel ABI.
- The raw bytes of the allocation are modelled structurally: the portion of the
  buffer after the 8 header bytes is decoded as the list of whole
  `kvm_cpuid_entry2` records it can hold, and the byte-for-byte copy done by
  `Clone` is modelled as copying those decoded fields.
-/

/-- 2^32, the modulus of `u32`; `x as u32` is `x % u32Mod`. -/
def u32Mod : Nat := 4294967296

/-- 2^64, the modulus of `usize` on the 64-bit targets this code runs on. -/
def u64Mod : Nat := 18446744073709551616

/-- The rounded element count computed by `vec_with_size_in_bytes`
(src/ioctls/mod.rs line 25): `(size_in_bytes + size_of T - 1) / size_of T`. -/
def rounded_size (sizeT size_in_bytes : Nat) : Nat :=
  (size_in_bytes + sizeT - 1) / sizeT

/-- Embeds `vec_with_size_in_bytes` (src/ioctls/mod.rs lines 24-31): a vector
of `rounded_size` default-initialized elements of a type whose size is
`sizeT` bytes. The source pushes `T::default()` `rounded_size` times. -/
def vec_with_size_in_bytes (α : Type) [Inhabited α] (sizeT size_in_bytes : Nat) :
    List α :=
  List.replicate (rounded_size sizeT size_in_bytes) default

/-- Embeds `vec_with_array_field` (src/ioctls/mod.rs lines 48-52):
`element_space = count * size_of F`, `vec_size_bytes = size_of T +
element_space`, delegated to `vec_with_size_in_bytes`. -/
def vec_with_array_field (α : Type) [Inhabited α] (sizeT sizeF count : Nat) :
    List α :=
  vec_with_size_in_bytes α sizeT (sizeT + count * sizeF)

/-- `size_of::<kvm_cpuid2>()`: u32 nent + u32 padding + zero-length entries
array, 8 bytes. -/
def size_of_kvm_cpuid2 : Nat := 8

/-- `size_of::<kvm_cpuid_entry2>()`: ten u32 fields
(function, index, flags, eax, ebx, ecx, edx, padding[3]), 40 bytes. -/
def size_of_kvm_cpuid_entry2 : Nat := 40

/-- The header element of `kvm_cpuid2`: the fields that occupy its 8 bytes.
The trailing zero-length `entries` array contributes no bytes. -/
structure kvm_cpuid2 where
  nent : Nat
  padding : Nat
deriving DecidableEq

instance : Inhabited kvm_cpuid2 := ⟨⟨0, 0⟩⟩

/-- One `kvm_cpuid_entry2` record (all fields u32; the three padding words are
decoded together as one field since no code distinguishes them). -/
structure kvm_cpuid_entry2 where
  function : Nat
  index : Nat
  flags : Nat
  eax : Nat
  ebx : Nat
  ecx : Nat
  edx : Nat
deriving DecidableEq

instance : Inhabited kvm_cpuid_entry2 := ⟨⟨0, 0, 0, 0, 0, 0, 0⟩⟩

/-- Number of whole `kvm_cpuid_entry2` records that fit in the bytes of a
`Vec<kvm_cpuid2>` of length `buf_len` after the 8 header bytes. This is the
physical extent of the trailing array region of the allocation. -/
def entry_capacity (buf_len : Nat) : Nat :=
  (buf_len * size_of_kvm_cpuid2 - size_of_kvm_cpuid2) / size_of_kvm_cpuid_entry2

/-- Embeds `CpuId` (src/ioctls/mod.rs lines 57-62). The `Vec<kvm_cpuid2>`
buffer is decomposed into the live header fields (`nent`, `padding`), the
trailing-array region decoded as entries, and the vector length `buf_len`;
`allocated_len` is kept verbatim. -/
structure CpuId where
  nent : Nat
  padding : Nat
  entries : List kvm_cpuid_entry2
  buf_len : Nat
  allocated_len : Nat
deriving DecidableEq

/-- Embeds `CpuId::new` (src/ioctls/mod.rs lines 109-117): allocate with
`vec_with_array_field::<kvm_cpuid2, kvm_cpuid_entry2>(array_len)` (a
default-zeroed buffer, so the decoded entries are default), then store
`array_len as u32` into the header's `nent`. -/
def CpuId.new (array_len : Nat) : CpuId :=
  let kvm_cpuid := vec_with_array_field kvm_cpuid2 size_of_kvm_cpuid2
    size_of_kvm_cpuid_entry2 array_len
  { nent := array_len % u32Mod
    padding := 0
    entries := List.replicate (entry_capacity kvm_cpuid.length) default
    buf_len := kvm_cpuid.length
    allocated_len := array_len }

/-- Embeds `CpuId::mut_entries_slice` (src/ioctls/mod.rs lines 121-129):
clamp the header's `nent` to `allocated_len as u32` when it exceeds
`allocated_len`, then return the view of the first `nent` trailing entries
together with the updated container (the clamp is written back to the
header in place). -/
def CpuId.mut_entries_slice (c : CpuId) : List kvm_cpuid_entry2 × CpuId :=
  let c0 := if c.allocated_len < c.nent
    then { c with nent := c.allocated_len % u32Mod }
    else c
  (c0.entries.take c0.nent, c0)

/-- Embeds `Clone for CpuId` (src/ioctls/mod.rs lines 65-87): a fresh
default-initialized vector of the same length is allocated and
`num_bytes = len * size_of kvm_cpuid2` bytes are copied from the source,
which reproduces the header fields and every entry byte; `allocated_len`
is copied as well. -/
def CpuId.clone (c : CpuId) : CpuId :=
  { nent := c.nent
    padding := c.padding
    entries := c.entries
    buf_len := c.buf_len
    allocated_len := c.allocated_len }

/-- Writing entry `i` through the mutable entries view (`slice[i] = e`): the
trailing-array region with record `i` overwritten. Out-of-range writes do not
occur through the bounds-checked view; `List.set` is the in-range effect. -/
def CpuId.set_entry (c : CpuId) (i : Nat) (e : kvm_cpuid_entry2) : CpuId :=
  { c with entries := c.entries.set i e }

/-- A store to the header's `nent` field (a u32 store, as the kernel or a test
would perform through the raw pointer): the value is truncated to 32 bits. -/
def CpuId.set_nent (c : CpuId) (v : Nat) : CpuId :=
  { c with nent := v % u32Mod }

/-- Embeds `PartialEq for CpuId` (src/ioctls/mod.rs lines 91-99) exactly as
written: BOTH slices are taken from `self.kvm_cpuid[0].entries` — the first
with `self.allocated_len`, the second with `other.allocated_len`; `other`'s
buffer is never read. -/
def cpuIdEq (a b : CpuId) : Bool :=
  let entries := a.entries.take a.allocated_len
  let other_entries := a.entries.take b.allocated_len
  decide (a.allocated_len = b.allocated_len) && decide (entries = other_entries)

/-- Wrapping (release-profile) semantics of the size computation of
`vec_with_array_field` composed with `vec_with_size_in_bytes`
(src/ioctls/mod.rs lines 25 and 49-51), returning the length of the produced
vector: `count * sizeF`, `sizeT + element_space` and `+ sizeT - 1` all wrap
modulo 2^64 instead of aborting. -/
def vec_with_array_field_wrapping (sizeT sizeF count : Nat) : Nat :=
  let element_space := count * sizeF % u64Mod
  let vec_size_bytes := (sizeT + element_space) % u64Mod
  ((vec_size_bytes + sizeT) % u64Mod + u64Mod - 1) % u64Mod / sizeT

/-- The sentinel address returned by a failed `mmap`. -/
def MAP_FAILED : Int := -1

/-- Embeds `KvmRunWrapper` (src/ioctls/mod.rs lines 148-150): it stores only
the raw mapped address. -/
structure KvmRunWrapper where
  kvm_run_ptr : Int
deriving DecidableEq

/-- Embeds `KvmRunWrapper::mmap_from_fd` (src/ioctls/mod.rs lines 165-185).
The `mmap` system call is an external oracle, so its returned address
`mmap_ret` and the OS error code `last_os_error` current at failure are
parameters: when `mmap_ret == MAP_FAILED` the constructor returns
`Err(io::Error::last_os_error())` and no handle; otherwise it returns a
handle storing the returned address. -/
def KvmRunWrapper.mmap_from_fd (mmap_ret : Int) (last_os_error : Nat) :
    Except Nat KvmRunWrapper :=
  if mmap_ret = MAP_FAILED then Except.error last_os_error
  else Except.ok { kvm_run_ptr := mmap_ret }

/-- Concrete container for the equality analysis: `CpuId::new(1)` with
default (zero) entry contents. -/
def cpuid_a : CpuId := CpuId.new 1

/-- Concrete container for the equality analysis: `CpuId::new(1)` whose single
entry was changed through the mutable view, so its contents differ from
`cpuid_a`. -/
def cpuid_b : CpuId := (CpuId.new 1).set_entry 0 ⟨1, 0, 0, 0, 0, 0, 0⟩

/-- The container of the spec's clamp example: `CpuId::new(4)` whose header
count was forced to 10 through the raw pointer. -/
def cpuid_forced : CpuId := (CpuId.new 4).set_nent 10

/-- Helper: the rounded element count of `vec_with_size_in_bytes` provides at
least the requested number of bytes. -/
theorem le_rounded_size_mul (sizeT s : Nat) (ht : 0 < sizeT) :
    s ≤ rounded_size sizeT s * sizeT := by
  rcases Nat.eq_zero_or_pos s with hs | hs
  · simp [hs]
  · have hq : rounded_size sizeT s = (s - 1) / sizeT + 1 := by
      unfold rounded_size
      have hst : s + sizeT - 1 = (s - 1) + sizeT := by omega
      rw [hst, Nat.add_div_right _ ht]
    have h3 : (s - 1) < ((s - 1) / sizeT + 1) * sizeT :=
      (Nat.div_lt_iff_lt_mul ht).mp (Nat.lt_succ_self _)
    rw [hq]
    generalize ((s - 1) / sizeT + 1) * sizeT = M at h3 ⊢
    omega

/-- Helper: the buffer allocated by `CpuId::new(l)` physically holds at least
`l` trailing entries. -/
theorem le_entry_capacity (l : Nat) :
    l ≤ entry_capacity (vec_with_array_field kvm_cpuid2 size_of_kvm_cpuid2
      size_of_kvm_cpuid_entry2 l).length := by
  have h := le_rounded_size_mul size_of_kvm_cpuid2
    (size_of_kvm_cpuid2 + l * size_of_kvm_cpuid_entry2) (by decide)
  unfold vec_with_array_field vec_with_size_in_bytes entry_capacity
  rw [List.length_replicate]
  rw [Nat.le_div_iff_mul_le (by decide : 0 < size_of_kvm_cpuid_entry2)]
  unfold size_of_kvm_cpuid2 size_of_kvm_cpuid_entry2 at *
  generalize rounded_size 8 (8 + l * 40) * 8 = M at h ⊢
  omega

/-- Helper: `mut_entries_slice` when the header count does not exceed
`allocated_len` (no clamp is written). -/
theorem mut_entries_slice_no_clamp (c : CpuId) (h : ¬ c.allocated_len < c.nent) :
    c.mut_entries_slice = (c.entries.take c.nent, c) := by
  simp only [CpuId.mut_entries_slice, if_neg h]

/-- Helper: `mut_entries_slice` when the header count exceeds `allocated_len`
(the clamp `nent = allocated_len as u32` is written back). -/
theorem mut_entries_slice_clamp (c : CpuId) (h : c.allocated_len < c.nent) :
    c.mut_entries_slice = (c.entries.take (c.allocated_len % u32Mod),
      { c with nent := c.allocated_len % u32Mod }) := by
  simp only [CpuId.mut_entries_slice, if_pos h]

/-- Claim C1: for every CpuId whose header count is a u32 value and whose
buffer holds at least `allocated_len` entries (both hold for every container
the code builds), the view returned by `mut_entries_slice` never has length
greater than `allocated_len`; and when the header count was forced above
`allocated_len` before the call, the view's length is exactly
`allocated_len`. -/
theorem CpuId.mut_entries_slice_len_clamped (c : CpuId)
    (h1 : c.nent < u32Mod) (h2 : c.allocated_len ≤ c.entries.length) :
    (c.mut_entries_slice).1.length ≤ c.allocated_len ∧
    (c.allocated_len < c.nent → (c.mut_entries_slice).1.length = c.allocated_len) := by
  by_cases h : c.allocated_len < c.nent
  · have hmod : c.allocated_len % u32Mod = c.allocated_len :=
      Nat.mod_eq_of_lt (lt_trans h h1)
    rw [mut_entries_slice_clamp c h, hmod]
    simp only [List.length_take]
    omega
  · rw [mut_entries_slice_no_clamp c h]
    simp only [List.length_take]
    omega

/-- Claim C1 witness: the spec's example — `allocated_len = 4`, header count
forced to 10 — yields a view of length exactly 4. -/
theorem CpuId.mut_entries_slice_len_clamped_witness :
    (cpuid_forced.mut_entries_slice).1.length = 4 := by
  have h := CpuId.mut_entries_slice_len_clamped cpuid_forced (by decide) (by decide)
  exact h.2 (by decide)

/-- Claim C2 (code bug): `PartialEq for CpuId` as written never reads the
other container's entries — both slices come from `self`'s buffer — so two
containers with equal `allocated_len` but different entry contents compare
EQUAL, contradicting the specified element-wise comparison. Evaluated at the
failing input: `cpuid_a = CpuId::new(1)` and `cpuid_b` the same container
with its single entry changed. -/
theorem cpuIdEq_ignores_entry_contents :
    cpuIdEq cpuid_a cpuid_b = true ∧
    cpuid_a.allocated_len = cpuid_b.allocated_len ∧
    cpuid_a.entries ≠ cpuid_b.entries := by decide

/-- Claim C3: the buffer produced by `vec_with_array_field` has byte capacity
(element count times the header size) at least
`size_of(header) + count * size_of(element)`. -/
theorem vec_with_array_field_capacity (α : Type) [Inhabited α]
    (sizeT sizeF count : Nat) (ht : 0 < sizeT) :
    sizeT + count * sizeF ≤ (vec_with_array_field α sizeT sizeF count).length * sizeT := by
  unfold vec_with_array_field vec_with_size_in_bytes
  rw [List.length_replicate]
  exact le_rounded_size_mul sizeT _ ht

/-- Claim C3 witness: at the concrete sizes of `kvm_cpuid2` (8 bytes) and
`kvm_cpuid_entry2` (40 bytes) with `count = 3`. -/
theorem vec_with_array_field_capacity_witness :
    size_of_kvm_cpuid2 + 3 * size_of_kvm_cpuid_entry2 ≤
      (vec_with_array_field kvm_cpuid2 size_of_kvm_cpuid2
        size_of_kvm_cpuid_entry2 3).length * size_of_kvm_cpuid2 :=
  vec_with_array_field_capacity kvm_cpuid2 size_of_kvm_cpuid2
    size_of_kvm_cpuid_entry2 3 (by decide)

/-- Claim C4: for every `max_entries` representable in the u32 header field,
`CpuId::new(max_entries)` sets the header count to `max_entries`, sets
`allocated_len` to `max_entries`, and the view from `mut_entries_slice`
taken immediately after construction has length exactly `max_entries`. -/
theorem CpuId.new_initial_state (l : Nat) (h : l < u32Mod) :
    (CpuId.new l).nent = l ∧ (CpuId.new l).allocated_len = l ∧
    ((CpuId.new l).mut_entries_slice).1.length = l := by
  have hnent : (CpuId.new l).nent = l := Nat.mod_eq_of_lt h
  have hcond : ¬ (CpuId.new l).allocated_len < (CpuId.new l).nent := by
    rw [hnent]
    exact lt_irrefl l
  have hlen : (CpuId.new l).entries.length =
      entry_capacity (vec_with_array_field kvm_cpuid2 size_of_kvm_cpuid2
        size_of_kvm_cpuid_entry2 l).length := by
    simp [CpuId.new]
  have hcap := le_entry_capacity l
  refine ⟨hnent, rfl, ?_⟩
  rw [mut_entries_slice_no_clamp _ hcond, hnent]
  simp only [List.length_take]
  omega

/-- Claim C4 witness: constructing with `max_entries = 4`. -/
theorem CpuId.new_initial_state_witness :
    (CpuId.new 4).nent = 4 ∧ (CpuId.new 4).allocated_len = 4 ∧
    ((CpuId.new 4).mut_entries_slice).1.length = 4 :=
  CpuId.new_initial_state 4 (by decide)

/-- Claim C5: `Clone for CpuId` produces a container with the same buffer
length (hence the same total byte size), byte-for-byte identical content
(header fields and every entry) and the same `allocated_len`; and after
duplication, writing entry `i` of either container leaves every other-indexed
entry of the other container unchanged. -/
theorem CpuId.clone_deep_copy (c : CpuId) (i j : Nat) (e : kvm_cpuid_entry2)
    (hj : j ≠ i) :
    (c.clone).buf_len = c.buf_len ∧
    (c.clone).nent = c.nent ∧
    (c.clone).padding = c.padding ∧
    (c.clone).entries = c.entries ∧
    (c.clone).allocated_len = c.allocated_len ∧
    ((c.clone.set_entry i e).entries)[j]? = c.entries[j]? ∧
    ((c.set_entry i e).entries)[j]? = (c.clone).entries[j]? := by
  refine ⟨rfl, rfl, rfl, rfl, rfl, ?_, ?_⟩ <;>
    exact List.getElem?_set_ne (Ne.symm hj)

/-- Claim C5 witness: duplicate `CpuId::new(2)`, write entry 0 of one side,
and observe entry 1 of the other side unchanged. -/
theorem CpuId.clone_deep_copy_witness :
    ((CpuId.new 2).clone).buf_len = (CpuId.new 2).buf_len ∧
    ((CpuId.new 2).clone).nent = (CpuId.new 2).nent ∧
    ((CpuId.new 2).clone).padding = (CpuId.new 2).padding ∧
    ((CpuId.new 2).clone).entries = (CpuId.new 2).entries ∧
    ((CpuId.new 2).clone).allocated_len = (CpuId.new 2).allocated_len ∧
    (((CpuId.new 2).clone.set_entry 0 ⟨1, 0, 0, 0, 0, 0, 0⟩).entries)[1]? =
      (CpuId.new 2).entries[1]? ∧
    (((CpuId.new 2).set_entry 0 ⟨1, 0, 0, 0, 0, 0, 0⟩).entries)[1]? =
      ((CpuId.new 2).clone).entries[1]? :=
  CpuId.clone_deep_copy (CpuId.new 2) 0 1 ⟨1, 0, 0, 0, 0, 0, 0⟩ (by decide)

/-- Claim C6: `KvmRunWrapper::mmap_from_fd` either fails — when the mapping
call returns `MAP_FAILED` — with the OS-reported last error and no handle, or
succeeds and stores exactly the address the mapping call returned. -/
theorem KvmRunWrapper.mmap_from_fd_result (mmap_ret : Int) (last_os_error : Nat) :
    (mmap_ret = MAP_FAILED →
      KvmRunWrapper.mmap_from_fd mmap_ret last_os_error =
        Except.error last_os_error) ∧
    (mmap_ret ≠ MAP_FAILED →
      KvmRunWrapper.mmap_from_fd mmap_ret last_os_error =
        Except.ok { kvm_run_ptr := mmap_ret }) := by
  constructor
  · intro h
    simp only [KvmRunWrapper.mmap_from_fd, if_pos h]
  · intro h
    simp only [KvmRunWrapper.mmap_from_fd, if_neg h]

/-- Claim C6 witness: a failed mapping (return `-1`, errno 12) yields the
error and no handle; a successful mapping at address 4096 yields a handle
storing 4096. -/
theorem KvmRunWrapper.mmap_from_fd_result_witness :
    KvmRunWrapper.mmap_from_fd (-1) 12 = Except.error 12 ∧
    KvmRunWrapper.mmap_from_fd 4096 12 = Except.ok { kvm_run_ptr := 4096 } :=
  ⟨(KvmRunWrapper.mmap_from_fd_result (-1) 12).1 (by decide),
   (KvmRunWrapper.mmap_from_fd_result 4096 12).2 (by decide)⟩

/-- Claim C7 (code bug): under the wrapping arithmetic the shipped
release-profile code performs, `vec_with_array_field::<kvm_cpuid2,
kvm_cpuid_entry2>` at `count = 461168601842738791` wraps the byte-size
computation and silently produces a 32-byte buffer — it does not fail fast,
and the buffer is far smaller than the `8 + count * 40` bytes the function's
own contract promises. -/
theorem vec_with_array_field_overflow_wraps :
    vec_with_array_field_wrapping size_of_kvm_cpuid2 size_of_kvm_cpuid_entry2
        461168601842738791 * size_of_kvm_cpuid2 = 32 ∧
    32 < size_of_kvm_cpuid2 + 461168601842738791 * size_of_kvm_cpuid_entry2 := by
  decide

/-- Claim C8: every position of the vector produced by
`vec_with_size_in_bytes` equals the element type's default value (and the
vector has exactly the rounded-up number of elements), so no uninitialized
memory is exposed. -/
theorem vec_with_size_in_bytes_default_initialized (α : Type) [Inhabited α]
    (sizeT size_in_bytes : Nat) :
    (vec_with_size_in_bytes α sizeT size_in_bytes).length =
      rounded_size sizeT size_in_bytes ∧
    ∀ x ∈ vec_with_size_in_bytes α sizeT size_in_bytes, x = default := by
  refine ⟨List.length_replicate .., ?_⟩
  intro x hx
  exact List.eq_of_mem_replicate hx

/-- Claim C8 witness: a 20-byte request over 8-byte headers yields 3 elements,
and the zero header value is the default, so the membership instance is
default-initialized. -/
theorem vec_with_size_in_bytes_default_initialized_witness :
    (vec_with_size_in_bytes kvm_cpuid2 size_of_kvm_cpuid2 20).length =
      rounded_size size_of_kvm_cpuid2 20 ∧
    (⟨0, 0⟩ : kvm_cpuid2) = default :=
  ⟨(vec_with_size_in_bytes_default_initialized kvm_cpuid2 size_of_kvm_cpuid2 20).1,
   (vec_with_size_in_bytes_default_initialized kvm_cpuid2 size_of_kvm_cpuid2 20).2
     _ (by decide)⟩

/-- Claim C9: `mut_entries_slice` persistently writes the clamp back: after
the call the header count equals `min` of its previous value and
`allocated_len`, while `allocated_len`, the buffer length, the entry
contents and the padding are unchanged; a second call on the unmodified
container returns a view of the same length. -/
theorem CpuId.mut_entries_slice_frame (c : CpuId) (h1 : c.nent < u32Mod) :
    (c.mut_entries_slice).2.nent = min c.nent c.allocated_len ∧
    (c.mut_entries_slice).2.allocated_len = c.allocated_len ∧
    (c.mut_entries_slice).2.entries = c.entries ∧
    (c.mut_entries_slice).2.buf_len = c.buf_len ∧
    (c.mut_entries_slice).2.padding = c.padding ∧
    ((c.mut_entries_slice).2.mut_entries_slice).1.length =
      (c.mut_entries_slice).1.length := by
  by_cases h : c.allocated_len < c.nent
  · have hmod : c.allocated_len % u32Mod = c.allocated_len :=
      Nat.mod_eq_of_lt (lt_trans h h1)
    have hcond : ¬ ({ c with nent := c.allocated_len % u32Mod } : CpuId).allocated_len <
        ({ c with nent := c.allocated_len % u32Mod } : CpuId).nent := by
      show ¬ c.allocated_len < c.allocated_len % u32Mod
      omega
    rw [mut_entries_slice_clamp c h]
    refine ⟨?_, rfl, rfl, rfl, rfl, ?_⟩
    · show c.allocated_len % u32Mod = min c.nent c.allocated_len
      omega
    · show (({ c with nent := c.allocated_len % u32Mod } : CpuId).mut_entries_slice).1.length =
        (c.entries.take (c.allocated_len % u32Mod)).length
      rw [mut_entries_slice_no_clamp _ hcond]
  · rw [mut_entries_slice_no_clamp c h]
    refine ⟨?_, rfl, rfl, rfl, rfl, ?_⟩
    · show c.nent = min c.nent c.allocated_len
      omega
    · show (c.mut_entries_slice).1.length = (c.entries.take c.nent).length
      rw [mut_entries_slice_no_clamp c h]

/-- Claim C9 witness: on the forced container (`allocated_len = 4`, header
count 10) the call writes back 4 = min 10 4, changes nothing else, and a
repeated call returns a view of the same length. -/
theorem CpuId.mut_entries_slice_frame_witness :
    (cpuid_forced.mut_entries_slice).2.nent =
      min cpuid_forced.nent cpuid_forced.allocated_len ∧
    (cpuid_forced.mut_entries_slice).2.allocated_len = cpuid_forced.allocated_len ∧
    (cpuid_forced.mut_entries_slice).2.entries = cpuid_forced.entries ∧
    (cpuid_forced.mut_entries_slice).2.buf_len = cpuid_forced.buf_len ∧
    (cpuid_forced.mut_entries_slice).2.padding = cpuid_forced.padding ∧
    ((cpuid_forced.mut_entries_slice).2.mut_entries_slice).1.length =
      (cpuid_forced.mut_entries_slice).1.length :=
  CpuId.mut_entries_slice_frame cpuid_forced (by decide)

/-- Claim C10: `CpuId::new` stores `array_len as u32` (truncation modulo 2^32)
into the header count while `allocated_len` keeps the untruncated value, so
the two agree exactly when `array_len < 2^32` and disagree for every larger
`array_len`. -/
theorem CpuId.new_nent_truncated (l : Nat) :
    (CpuId.new l).nent = l % u32Mod ∧
    (CpuId.new l).allocated_len = l ∧
    (l < u32Mod → (CpuId.new l).nent = (CpuId.new l).allocated_len) ∧
    (u32Mod ≤ l → (CpuId.new l).nent ≠ (CpuId.new l).allocated_len) := by
  refine ⟨rfl, rfl, ?_, ?_⟩
  · intro h
    show l % u32Mod = l
    exact Nat.mod_eq_of_lt h
  · intro h
    show l % u32Mod ≠ l
    have hlt : l % u32Mod < u32Mod := Nat.mod_lt l (by decide)
    omega

/-- Claim C10 witness: at `array_len = 2^32` the header count (0) disagrees
with `allocated_len`; at `array_len = 3` they agree. -/
theorem CpuId.new_nent_truncated_witness :
    (CpuId.new 4294967296).nent ≠ (CpuId.new 4294967296).allocated_len ∧
    (CpuId.new 3).nent = (CpuId.new 3).allocated_len :=
  ⟨(CpuId.new_nent_truncated 4294967296).2.2.2 (by decide),
   (CpuId.new_nent_truncated 3).2.2.1 (by decide)⟩
